import Mathlib

/-!
A shallow embedding of the ring queue of `src/rte_ring.h` (a modified
DPDK-style rte_ring), together with theorems settling the specification
claims.  The C code is sequentialised: the CAS in the head-move loops
always succeeds on the first try (single-thread semantics), and the
busy-wait of `update_tail` is modelled as a guarded step returning
`Option` (`none` = the guard `*tail == old_val` does not hold, the store
does not happen).  All counters are C `uint32_t`; they are modelled as
`Nat` and every 32-bit operation is made explicit with `% U32`.
The per-element `memcpy` is modelled at slot granularity: `data` is a
list of `size` abstract element values.
-/

namespace RteRing

/-- `2 ^ 32`: the modulus of C `uint32_t` arithmetic. -/
def U32 : Nat := 2 ^ 32

/-- The behavior flag of `enum rte_ring_queue_behavior` (rte_ring.h:56-59). -/
inductive rte_ring_queue_behavior where
  | RTE_RING_QUEUE_FIXED
  | RTE_RING_QUEUE_VARIABLE
  deriving DecidableEq

/-- The `struct rte_ring` of rte_ring.h:71-89, with the four shared
counters (the C struct holds pointers into the storage block) and the
data region inlined as fields.  `data` holds one abstract value per slot. -/
structure rte_ring where
  size : Nat
  mask : Nat
  capacity : Nat
  elemlen : Nat
  prod_head : Nat
  prod_tail : Nat
  cons_head : Nat
  cons_tail : Nat
  data : List Nat
  deriving DecidableEq

/-- `update_tail` (rte_ring.h:92-104): spin while `*tail != old_val`, then
store `new_val` into the tail.  Modelled as a guarded step: `some new_val`
when the wait has completed (guard holds), `none` while an earlier
reservation is still unpublished (the store does not happen).  The C
function's first parameter `head` is unused in the source and dropped. -/
def update_tail (tail old_val new_val : Nat) : Option Nat :=
  if tail = old_val then some new_val else none

/-- The outputs of a head-move: the granted count (the C return value)
and the `*old_head` / `*new_head` out-parameters. -/
structure MoveResult where
  granted : Nat
  old_head : Nat
  new_head : Nat
  deriving DecidableEq

/-- `free_entries = (capacity + *cons_tail - *old_head) % size`
(rte_ring.h:155) in uint32 arithmetic, with `*old_head = *r->prod_head`
freshly loaded. -/
def free_entries_of (r : rte_ring) : Nat :=
  ((r.capacity % U32 + r.cons_tail % U32 + U32 - r.prod_head % U32) % U32) % r.size

/-- `*entries = (*prod_tail - *old_head + size) % size` (rte_ring.h:224)
in uint32 arithmetic, with `*old_head = *r->cons_head` freshly loaded. -/
def entries_of (r : rte_ring) : Nat :=
  (((r.prod_tail % U32 + U32 - r.cons_head % U32) % U32 + r.size % U32) % U32) % r.size

/-- The clamping of the requested count against the available count
(rte_ring.h:158-160 and :227-228): keep `n` when it fits, else 0 under
FIXED and the available count under VARIABLE. -/
def behavior_clamp (behavior : rte_ring_queue_behavior) (n avail : Nat) : Nat :=
  if n > avail then
    match behavior with
    | .RTE_RING_QUEUE_FIXED => 0
    | .RTE_RING_QUEUE_VARIABLE => avail
  else n

/-- `__rte_ring_move_prod_head` (rte_ring.h:129-176), sequentialised (the
CAS succeeds at once).  Line 165: `*new_head = (*old_head + n) % size` in
uint32 arithmetic.  When the function returns 0 the C code never writes
`*new_head`; here it is set to `old_head`. -/
def __rte_ring_move_prod_head (r : rte_ring) (n : Nat)
    (behavior : rte_ring_queue_behavior) : MoveResult × rte_ring :=
  let old_head := r.prod_head % U32
  let n1 := behavior_clamp behavior n (free_entries_of r)
  if n1 = 0 then ({ granted := 0, old_head := old_head, new_head := old_head }, r)
  else
    let new_head := ((old_head + n1) % U32) % r.size
    ({ granted := n1, old_head := old_head, new_head := new_head },
      { r with prod_head := new_head })

/-- `__rte_ring_move_cons_head` (rte_ring.h:201-243), sequentialised.
Line 233: `*new_head = (*old_head + n) % size` in uint32 arithmetic. -/
def __rte_ring_move_cons_head (r : rte_ring) (n : Nat)
    (behavior : rte_ring_queue_behavior) : MoveResult × rte_ring :=
  let old_head := r.cons_head % U32
  let n1 := behavior_clamp behavior n (entries_of r)
  if n1 = 0 then ({ granted := 0, old_head := old_head, new_head := old_head }, r)
  else
    let new_head := ((old_head + n1) % U32) % r.size
    ({ granted := n1, old_head := old_head, new_head := new_head },
      { r with cons_head := new_head })

/-- The byte offset of the `i`-th copied slot in the enqueue/dequeue copy
loops: `((head + i) % size) * r->elemlen` (rte_ring.h:281 and :324).
`head + i` cannot wrap in uint32 for C-representable sizes, since both
operands are below `size <= 2^31`. -/
def slot_offset (r : rte_ring) (head i : Nat) : Nat :=
  ((head + i) % r.size) * r.elemlen

/-- `__rte_ring_do_enqueue` (rte_ring.h:265-287): move the producer head,
copy `granted` elements from `obj_table` into slots `(old_head + i) % size`
(the `memcpy` of line 281, at slot granularity), then publish through
`update_tail`.  `none` means the publish guard did not hold (the C code
would spin). -/
def __rte_ring_do_enqueue (r : rte_ring) (obj_table : List Nat) (n : Nat)
    (behavior : rte_ring_queue_behavior) : Option (Nat × rte_ring) :=
  let res := __rte_ring_move_prod_head r n behavior
  let m := res.1
  let r1 := res.2
  if m.granted = 0 then some (0, r1)
  else
    let data1 := (List.range m.granted).foldl
      (fun d i => d.set ((m.old_head + i) % r.size) (obj_table.getD i 0)) r1.data
    match update_tail (r1.prod_tail % U32) m.old_head m.new_head with
    | some t => some (m.granted, { r1 with data := data1, prod_tail := t })
    | none => none

/-- `__rte_ring_do_dequeue` (rte_ring.h:309-329): move the consumer head,
read `granted` elements from slots `(old_head + i) % size` (the `memcpy`
of line 324, at slot granularity; the C out-buffer becomes the returned
list), then publish through `update_tail`. -/
def __rte_ring_do_dequeue (r : rte_ring) (n : Nat)
    (behavior : rte_ring_queue_behavior) : Option (Nat × List Nat × rte_ring) :=
  let res := __rte_ring_move_cons_head r n behavior
  let m := res.1
  let r1 := res.2
  if m.granted = 0 then some (0, [], r1)
  else
    let out := (List.range m.granted).map
      (fun i => r1.data.getD ((m.old_head + i) % r.size) 0)
    match update_tail (r1.cons_tail % U32) m.old_head m.new_head with
    | some t => some (m.granted, out, { r1 with cons_tail := t })
    | none => none

/-- `rte_ring_enqueue_bulk` (rte_ring.h:349-354): the public bulk enqueue.
It passes `RTE_RING_QUEUE_VARIABLE` unconditionally. -/
def rte_ring_enqueue_bulk (r : rte_ring) (obj_table : List Nat) (n : Nat) :
    Option (Nat × rte_ring) :=
  __rte_ring_do_enqueue r obj_table n .RTE_RING_QUEUE_VARIABLE

/-- `rte_ring_dequeue_bulk` (rte_ring.h:394-399): the public bulk dequeue.
It passes `RTE_RING_QUEUE_FIXED` unconditionally. -/
def rte_ring_dequeue_bulk (r : rte_ring) (n : Nat) :
    Option (Nat × List Nat × rte_ring) :=
  __rte_ring_do_dequeue r n .RTE_RING_QUEUE_FIXED

/-- `rte_ring_create` (rte_ring.h:432-449): `size = (totallen - 512) /
elemlen`, `mask = capacity = size - 1`, all four counters zeroed by the
`memset`, data region zeroed.  There is no validation and no failure
path (`malloc` aside).  This embedding is faithful exactly on the domain
where the C arithmetic is defined and nonnegative: `elemlen >= 1`,
`totallen >= 512` and derived `size >= 1`.  Outside it the C diverges
from `Nat`: `elemlen = 0` is division by zero (UB, no handle returned);
`totallen < 512` makes the `int` subtraction negative and the `uint32`
size wraps huge; derived `size = 0` makes `mask = capacity` wrap to
`2^32 - 1`.  Theorems about creation therefore carry hypotheses keeping
them inside the faithful domain. -/
def rte_ring_create (totallen elemlen : Nat) : rte_ring :=
  let size := (totallen - 512) / elemlen
  { size := size
    mask := size - 1
    capacity := size - 1
    elemlen := elemlen
    prod_head := 0
    prod_tail := 0
    cons_head := 0
    cons_tail := 0
    data := List.replicate size 0 }

/-- The occupancy printed by `ring_info` (rte_ring.h:468):
`(*prod_head - *cons_head + r->size) % r->size` in uint32 arithmetic. -/
def ring_usage (r : rte_ring) : Nat :=
  (((r.prod_head % U32 + U32 - r.cons_head % U32) % U32 + r.size % U32) % U32) % r.size

/-- The spec's occupied-count formula, literally as the spec words it:
`(producer_tail - consumer_head) mod 2^32`.  Kept separate from the
code-derived definitions so the two can be compared. -/
def occupied32 (r : rte_ring) : Nat :=
  (r.prod_tail % U32 + U32 - r.cons_head % U32) % U32

/-- The occupied count reduced modulo `size`, matching the arithmetic the
code actually maintains (all counters are stored `% size`). -/
def occupied_mod_size (r : rte_ring) : Nat :=
  ((r.prod_tail % U32 + U32 - r.cons_head % U32) % U32) % r.size

/-- One sequential operation on the ring, for quantifying over operation
sequences. -/
inductive RingOp where
  | enq (vals : List Nat) (n : Nat) (b : rte_ring_queue_behavior)
  | deq (n : Nat) (b : rte_ring_queue_behavior)
  deriving DecidableEq

/-- Apply one operation; a `none` result (publish guard failing, which
cannot happen in sequential quiescent execution) leaves the state as is. -/
def applyOp (r : rte_ring) (op : RingOp) : rte_ring :=
  match op with
  | .enq vals n b =>
    match __rte_ring_do_enqueue r vals n b with
    | some p => p.2
    | none => r
  | .deq n b =>
    match __rte_ring_do_dequeue r n b with
    | some p => p.2.2
    | none => r

/-- Run a sequence of operations from a starting state. -/
def runOps (r : rte_ring) (ops : List RingOp) : rte_ring :=
  ops.foldl applyOp r

/-! ### Concrete trace states

The spec's concrete scenario: a ring created over a 544-byte block with
4-byte elements, so `size = (544 - 512) / 4 = 8` and `capacity = 7`.
All steps use FIXED behavior through the internal operations. -/

/-- The freshly created scenario ring: size 8, capacity 7, 4-byte elements. -/
def demo0 : rte_ring := rte_ring_create 544 4

/-- Result of enqueueing `[1,...,7]` under FIXED on the fresh ring. -/
def demoE1 : Option (Nat × rte_ring) :=
  __rte_ring_do_enqueue demo0 [1, 2, 3, 4, 5, 6, 7] 7 .RTE_RING_QUEUE_FIXED

/-- State after the first enqueue (7 elements in, counters at 7/7/0/0). -/
def demo1 : rte_ring := (demoE1.getD (0, demo0)).2

/-- Result of dequeuing 3 elements from `demo1`. -/
def demoD1 : Option (Nat × List Nat × rte_ring) :=
  __rte_ring_do_dequeue demo1 3 .RTE_RING_QUEUE_FIXED

/-- State after dequeuing 3 (counters at 7/7/3/3, occupancy 4). -/
def demo2 : rte_ring := (demoD1.getD (0, [], demo1)).2.2

/-- Result of enqueueing `[8,9,10]` under FIXED on `demo2`. -/
def demoE3 : Option (Nat × rte_ring) :=
  __rte_ring_do_enqueue demo2 [8, 9, 10] 3 .RTE_RING_QUEUE_FIXED

/-- State after the wrapping enqueue (counters at 2/2/3/3, occupancy 7). -/
def demo3 : rte_ring := (demoE3.getD (0, demo2)).2

/-- Result of the final dequeue of all 7 remaining elements. -/
def demoD2 : Option (Nat × List Nat × rte_ring) :=
  __rte_ring_do_dequeue demo3 7 .RTE_RING_QUEUE_FIXED

/-! ### Shared helper lemmas -/

/-- A zero request clamps to zero under every behavior. -/
theorem behavior_clamp_zero (b : rte_ring_queue_behavior) (avail : Nat) :
    behavior_clamp b 0 avail = 0 := by
  simp [behavior_clamp]

/-- A request of `n = 0` makes the producer head-move return 0 at once,
before the CAS, leaving the ring untouched. -/
theorem do_enqueue_zero (r : rte_ring) (obj : List Nat) (b : rte_ring_queue_behavior) :
    __rte_ring_do_enqueue r obj 0 b = some (0, r) := by
  simp [__rte_ring_do_enqueue, __rte_ring_move_prod_head, behavior_clamp_zero]

/-- A request of `n = 0` makes the consumer head-move return 0 at once,
before the CAS, leaving the ring untouched. -/
theorem do_dequeue_zero (r : rte_ring) (b : rte_ring_queue_behavior) :
    __rte_ring_do_dequeue r 0 b = some (0, [], r) := by
  simp [__rte_ring_do_dequeue, __rte_ring_move_cons_head, behavior_clamp_zero]

/-- Unfolded form of the producer head-move. -/
theorem move_prod_head_eq (r : rte_ring) (n : Nat) (b : rte_ring_queue_behavior) :
    __rte_ring_move_prod_head r n b =
      if behavior_clamp b n (free_entries_of r) = 0 then
        ({ granted := 0, old_head := r.prod_head % U32,
           new_head := r.prod_head % U32 }, r)
      else
        ({ granted := behavior_clamp b n (free_entries_of r),
           old_head := r.prod_head % U32,
           new_head := ((r.prod_head % U32 + behavior_clamp b n (free_entries_of r)) % U32) % r.size },
         { r with prod_head :=
            ((r.prod_head % U32 + behavior_clamp b n (free_entries_of r)) % U32) % r.size }) :=
  rfl

/-- Unfolded form of the consumer head-move. -/
theorem move_cons_head_eq (r : rte_ring) (n : Nat) (b : rte_ring_queue_behavior) :
    __rte_ring_move_cons_head r n b =
      if behavior_clamp b n (entries_of r) = 0 then
        ({ granted := 0, old_head := r.cons_head % U32,
           new_head := r.cons_head % U32 }, r)
      else
        ({ granted := behavior_clamp b n (entries_of r),
           old_head := r.cons_head % U32,
           new_head := ((r.cons_head % U32 + behavior_clamp b n (entries_of r)) % U32) % r.size },
         { r with cons_head :=
            ((r.cons_head % U32 + behavior_clamp b n (entries_of r)) % U32) % r.size }) :=
  rfl

/-- The clamped count never exceeds the available count. -/
theorem behavior_clamp_le (b : rte_ring_queue_behavior) (n avail : Nat) :
    behavior_clamp b n avail ≤ max avail n := by
  unfold behavior_clamp
  split
  · cases b <;> simp
  · simp

/-- Under FIXED, an oversize request is clamped to 0. -/
theorem behavior_clamp_fixed_zero {n avail : Nat} (h : n > avail) :
    behavior_clamp .RTE_RING_QUEUE_FIXED n avail = 0 := by
  simp [behavior_clamp, h]

/-- A request that fits is granted in full. -/
theorem behavior_clamp_of_le (b : rte_ring_queue_behavior) {n avail : Nat}
    (h : n ≤ avail) : behavior_clamp b n avail = n := by
  simp [behavior_clamp, Nat.not_lt.mpr h]

/-- Free space as computed by the code is always below `size`. -/
theorem free_entries_lt (r : rte_ring) (hs : 0 < r.size) :
    free_entries_of r < r.size :=
  Nat.mod_lt _ hs

/-- Entry count as computed by the code is always below `size`. -/
theorem entries_lt (r : rte_ring) (hs : 0 < r.size) :
    entries_of r < r.size :=
  Nat.mod_lt _ hs

/-- Enqueue leaves the configuration fields unchanged. -/
theorem do_enqueue_frame (r : rte_ring) (obj : List Nat) (n : Nat)
    (b : rte_ring_queue_behavior) (g : Nat) (r2 : rte_ring)
    (h : __rte_ring_do_enqueue r obj n b = some (g, r2)) :
    r2.size = r.size ∧ r2.capacity = r.capacity := by
  dsimp only [__rte_ring_do_enqueue] at h
  rw [move_prod_head_eq] at h
  split at h
  · obtain ⟨rfl, rfl⟩ := by simpa using h
    exact ⟨rfl, rfl⟩
  · unfold update_tail at h
    split at h
    · obtain ⟨rfl, rfl⟩ := by simpa using h
      exact ⟨rfl, rfl⟩
    · simp at h

/-- Dequeue leaves the configuration fields unchanged. -/
theorem do_dequeue_frame (r : rte_ring) (n : Nat)
    (b : rte_ring_queue_behavior) (g : Nat) (out : List Nat) (r2 : rte_ring)
    (h : __rte_ring_do_dequeue r n b = some (g, out, r2)) :
    r2.size = r.size ∧ r2.capacity = r.capacity := by
  dsimp only [__rte_ring_do_dequeue] at h
  rw [move_cons_head_eq] at h
  split at h
  · obtain ⟨rfl, rfl, rfl⟩ := by simpa using h
    exact ⟨rfl, rfl⟩
  · unfold update_tail at h
    split at h
    · obtain ⟨rfl, rfl, rfl⟩ := by simpa using h
      exact ⟨rfl, rfl⟩
    · simp at h

/-- One operation leaves the configuration fields unchanged. -/
theorem applyOp_frame (r : rte_ring) (op : RingOp) :
    (applyOp r op).size = r.size ∧ (applyOp r op).capacity = r.capacity := by
  cases op with
  | enq vals n b =>
    dsimp only [applyOp]
    cases h : __rte_ring_do_enqueue r vals n b with
    | none => exact ⟨rfl, rfl⟩
    | some p => exact do_enqueue_frame r vals n b p.1 p.2 (by rw [h])
  | deq n b =>
    dsimp only [applyOp]
    cases h : __rte_ring_do_dequeue r n b with
    | none => exact ⟨rfl, rfl⟩
    | some p => exact do_dequeue_frame r n b p.1 p.2.1 p.2.2 (by rw [h])

/-- Any operation sequence leaves the configuration fields unchanged. -/
theorem runOps_frame (ops : List RingOp) (r : rte_ring) :
    (runOps r ops).size = r.size ∧ (runOps r ops).capacity = r.capacity := by
  induction ops generalizing r with
  | nil => exact ⟨rfl, rfl⟩
  | cons op ops ih =>
    have h1 := applyOp_frame r op
    have h2 := ih (applyOp r op)
    unfold runOps at h2 ⊢
    rw [List.foldl_cons]
    omega

/-- A ring whose producer and consumer heads coincide reports occupancy 0. -/
theorem ring_usage_eq_zero (r : rte_ring) (hph : r.prod_head = r.cons_head)
    (hs : 0 < r.size) (h31 : r.size ≤ 2 ^ 31) : ring_usage r = 0 := by
  unfold ring_usage
  rw [hph]
  have e1 : ((r.cons_head % U32 + U32 - r.cons_head % U32) % U32 + r.size % U32) % U32
      = r.size := by
    unfold U32
    omega
  rw [e1]
  exact Nat.mod_self _

/-- Round trip on a zeroed ring of size `s`: enqueueing `s - 1` elements
grants all of them, dequeuing `s - 1` grants all of them, and the final
state has all four counters equal with occupancy 0. -/
theorem roundtrip_aux (s m e : Nat) (d vals : List Nat)
    (h1 : 1 ≤ s) (h2 : s ≤ 2 ^ 31) :
    ∃ (r1 r2 : rte_ring) (out : List Nat),
      __rte_ring_do_enqueue ⟨s, m, s - 1, e, 0, 0, 0, 0, d⟩ vals (s - 1)
          .RTE_RING_QUEUE_FIXED = some (s - 1, r1)
      ∧ __rte_ring_do_dequeue r1 (s - 1) .RTE_RING_QUEUE_FIXED = some (s - 1, out, r2)
      ∧ r2.prod_head = r2.prod_tail ∧ r2.prod_tail = r2.cons_head
      ∧ r2.cons_head = r2.cons_tail ∧ ring_usage r2 = 0 := by
  by_cases hc : s - 1 = 0
  · refine ⟨⟨s, m, s - 1, e, 0, 0, 0, 0, d⟩, ⟨s, m, s - 1, e, 0, 0, 0, 0, d⟩, [],
      ?_, ?_, rfl, rfl, rfl, ?_⟩
    · rw [hc]
      exact do_enqueue_zero _ _ _
    · rw [hc]
      exact do_dequeue_zero _ _
    · exact ring_usage_eq_zero _ rfl h1 h2
  · have hfree : free_entries_of ⟨s, m, s - 1, e, 0, 0, 0, 0, d⟩ = s - 1 := by
      unfold free_entries_of
      dsimp
      have e1 : ((s - 1) % U32 + 0 % U32 + U32 - 0 % U32) % U32 = s - 1 := by
        unfold U32; omega
      rw [e1]
      exact Nat.mod_eq_of_lt (by omega)
    have hclamp : behavior_clamp .RTE_RING_QUEUE_FIXED (s - 1) (s - 1) = s - 1 :=
      behavior_clamp_of_le _ (le_refl _)
    have hnh : (0 % U32 + (s - 1)) % U32 % s = s - 1 := by
      have e1 : (0 % U32 + (s - 1)) % U32 = s - 1 := by
        unfold U32; omega
      rw [e1]
      exact Nat.mod_eq_of_lt (by omega)
    refine ⟨⟨s, m, s - 1, e, s - 1, s - 1, 0, 0,
        (List.range (s - 1)).foldl
          (fun d2 i => d2.set ((0 % U32 + i) % s) (vals.getD i 0)) d⟩,
      ⟨s, m, s - 1, e, s - 1, s - 1, s - 1, s - 1,
        (List.range (s - 1)).foldl
          (fun d2 i => d2.set ((0 % U32 + i) % s) (vals.getD i 0)) d⟩,
      (List.range (s - 1)).map
        (fun i => ((List.range (s - 1)).foldl
          (fun d2 i2 => d2.set ((0 % U32 + i2) % s) (vals.getD i2 0)) d).getD
            ((0 % U32 + i) % s) 0),
      ?_, ?_, rfl, rfl, rfl, ?_⟩
    · simp only [__rte_ring_do_enqueue, move_prod_head_eq, hfree, hclamp, if_neg hc,
        hnh, update_tail]
      rfl
    · have hent : entries_of ⟨s, m, s - 1, e, s - 1, s - 1, 0, 0,
          (List.range (s - 1)).foldl
            (fun d2 i => d2.set ((0 % U32 + i) % s) (vals.getD i 0)) d⟩ = s - 1 := by
        unfold entries_of
        dsimp
        have e1 : (((s - 1) % U32 + U32 - 0 % U32) % U32 + s % U32) % U32
            = (s - 1) + s := by
          unfold U32; omega
        rw [e1, Nat.add_mod_right]
        exact Nat.mod_eq_of_lt (by omega)
      simp only [__rte_ring_do_dequeue, move_cons_head_eq, hent, hclamp, if_neg hc,
        hnh, update_tail]
      rfl
    · exact ring_usage_eq_zero _ rfl h1 h2

/-! ### Claim theorems -/

/-- Claim C9: for every ring state, an enqueue or dequeue request with
`n = 0` returns 0 and has no side effects: the head-move returns before
attempting a CAS and all four counters and the storage are unchanged. -/
theorem c9_zero_request_noop (r : rte_ring) (obj : List Nat) (b : rte_ring_queue_behavior) :
    __rte_ring_do_enqueue r obj 0 b = some (0, r) ∧
    __rte_ring_do_dequeue r 0 b = some (0, [], r) :=
  ⟨do_enqueue_zero r obj b, do_dequeue_zero r b⟩

/-- Claim C1: the sequential concrete scenario on a freshly created ring
of size 8 (capacity 7) with 4-byte elements: enqueueing `[1,...,7]`
returns 7; enqueueing `[8]` under FIXED then returns 0 with the state
(hence the occupied count 7) unchanged; dequeuing 3 returns `[1,2,3]` in
order and the occupied count becomes 4; enqueueing `[8,9,10]` under FIXED
returns 3; the final dequeue of 7 returns `[4,5,6,7,8,9,10]` in order. -/
theorem c1_concrete_scenario :
    demo0.size = 8 ∧ demo0.capacity = 7 ∧
    demoE1 = some (7, demo1) ∧ ring_usage demo1 = 7 ∧
    __rte_ring_do_enqueue demo1 [8] 1 .RTE_RING_QUEUE_FIXED = some (0, demo1) ∧
    demoD1 = some (3, [1, 2, 3], demo2) ∧ ring_usage demo2 = 4 ∧
    demoE3 = some (3, demo3) ∧
    demoD2.map (fun p => (p.1, p.2.1)) = some (7, [4, 5, 6, 7, 8, 9, 10]) := by
  decide

/-- Claim C2 counterexample: the head counters are pre-masked into
`[0, size)`, not maintained modulo `2^32`.  In the reachable state
`demo2` (producer head 7, three free slots) a reservation of 3 slots
succeeds, and the code stores the new head `(7 + 3) % 8 = 2`, whereas
the claim requires `(7 + 3) mod 2^32 = 10`. -/
theorem c2_counterexample_head_is_premasked :
    runOps (rte_ring_create 544 4)
        [.enq [1, 2, 3, 4, 5, 6, 7] 7 .RTE_RING_QUEUE_FIXED,
         .deq 3 .RTE_RING_QUEUE_FIXED] = demo2 ∧
    (__rte_ring_move_prod_head demo2 3 .RTE_RING_QUEUE_FIXED).1.granted = 3 ∧
    (__rte_ring_move_prod_head demo2 3 .RTE_RING_QUEUE_FIXED).1.old_head = 7 ∧
    (7 + 3) % U32 = 10 ∧
    (__rte_ring_move_prod_head demo2 3 .RTE_RING_QUEUE_FIXED).2.prod_head = 2 ∧
    (__rte_ring_move_prod_head demo2 3 .RTE_RING_QUEUE_FIXED).2.prod_head ≠ 10 := by
  decide

/-- Claim C3 counterexample: in the quiescent reachable state `demo3`
(producer tail 2, consumer head 3, capacity 7) the spec's occupied-count
formula `(producer_tail - consumer_head) mod 2^32` evaluates to
`2^32 - 1`, far above the capacity, because the counters are maintained
modulo `size`, not modulo `2^32`. -/
theorem c3_counterexample_mod_u32_occupancy :
    runOps (rte_ring_create 544 4)
        [.enq [1, 2, 3, 4, 5, 6, 7] 7 .RTE_RING_QUEUE_FIXED,
         .deq 3 .RTE_RING_QUEUE_FIXED,
         .enq [8, 9, 10] 3 .RTE_RING_QUEUE_FIXED] = demo3 ∧
    demo3.prod_head = demo3.prod_tail ∧ demo3.cons_head = demo3.cons_tail ∧
    demo3.capacity = 7 ∧ occupied32 demo3 = U32 - 1 ∧
    demo3.capacity < occupied32 demo3 := by
  decide

/-- Claim C7 counterexample: the public bulk operations hard-wire the
behavior, each direction differently.  On `demo2` (3 free slots)
`rte_ring_enqueue_bulk` of 4 elements transfers 3 (best-effort VARIABLE,
where FIXED would give 0); on `demo1` (7 entries) `rte_ring_dequeue_bulk`
of 8 returns 0 (all-or-nothing FIXED, where VARIABLE would give 7).
Neither wrapper takes a behavior argument, so the choice required by the
claim is not exposed. -/
theorem c7_counterexample_behavior_not_selectable :
    rte_ring_enqueue_bulk demo2 [20, 21, 22, 23] 4 =
      __rte_ring_do_enqueue demo2 [20, 21, 22, 23] 4 .RTE_RING_QUEUE_VARIABLE ∧
    (rte_ring_enqueue_bulk demo2 [20, 21, 22, 23] 4).map Prod.fst = some 3 ∧
    (__rte_ring_do_enqueue demo2 [20, 21, 22, 23] 4 .RTE_RING_QUEUE_FIXED).map
      Prod.fst = some 0 ∧
    rte_ring_dequeue_bulk demo1 8 =
      __rte_ring_do_dequeue demo1 8 .RTE_RING_QUEUE_FIXED ∧
    (rte_ring_dequeue_bulk demo1 8).map (fun p => p.1) = some 0 ∧
    (__rte_ring_do_dequeue demo1 8 .RTE_RING_QUEUE_VARIABLE).map
      (fun p => p.1) = some 7 := by
  decide

/-- Claim C3 (amended): the counters are maintained modulo `size`, so the
occupied count is `(producer_tail - consumer_head) mod 2^32 mod size`
rather than `(producer_tail - consumer_head) mod 2^32`; for every
sequence of enqueue and dequeue operations starting from a freshly
created ring (of nonzero size) it is at least 0 and at most capacity at
every quiescent point. -/
theorem c3_amended_occupied_mod_size_bounded (totallen elemlen : Nat)
    (ops : List RingOp) (hs : 0 < (totallen - 512) / elemlen) :
    occupied_mod_size (runOps (rte_ring_create totallen elemlen) ops) ≤
      (rte_ring_create totallen elemlen).capacity := by
  have hsz := (runOps_frame ops (rte_ring_create totallen elemlen)).1
  unfold occupied_mod_size
  rw [hsz]
  show _ % (rte_ring_create totallen elemlen).size ≤ _
  have hcap : (rte_ring_create totallen elemlen).capacity =
      (totallen - 512) / elemlen - 1 := rfl
  have hsz2 : (rte_ring_create totallen elemlen).size =
      (totallen - 512) / elemlen := rfl
  rw [hcap, hsz2]
  exact Nat.le_sub_one_of_lt (Nat.mod_lt _ hs)

theorem c3_amended_occupied_mod_size_bounded_witness :
    occupied_mod_size (runOps (rte_ring_create 544 4)
        [.enq [1, 2, 3, 4, 5, 6, 7] 7 .RTE_RING_QUEUE_FIXED,
         .deq 3 .RTE_RING_QUEUE_FIXED,
         .enq [8, 9, 10] 3 .RTE_RING_QUEUE_FIXED]) ≤
      (rte_ring_create 544 4).capacity :=
  c3_amended_occupied_mod_size_bounded 544 4
    [.enq [1, 2, 3, 4, 5, 6, 7] 7 .RTE_RING_QUEUE_FIXED,
     .deq 3 .RTE_RING_QUEUE_FIXED,
     .enq [8, 9, 10] 3 .RTE_RING_QUEUE_FIXED] (by decide)

/-- Claim C10: provided the ring was created with `elemlen > 0` and
`totallen >= 512 + elemlen`, every byte copy of enqueue and dequeue stays
within the data region: each slot offset `((head + i) % size) * elemlen`
satisfies `offset + elemlen <= size * elemlen <= totallen - 512` for
every `head` and `i` (in particular for all copied indices). -/
theorem c10_copy_stays_in_bounds (totallen elemlen head i : Nat)
    (he : 0 < elemlen) (hlen : 512 + elemlen ≤ totallen) :
    slot_offset (rte_ring_create totallen elemlen) head i +
        (rte_ring_create totallen elemlen).elemlen ≤
      (rte_ring_create totallen elemlen).size *
        (rte_ring_create totallen elemlen).elemlen ∧
    (rte_ring_create totallen elemlen).size *
        (rte_ring_create totallen elemlen).elemlen ≤ totallen - 512 := by
  have hs1 : 1 ≤ (totallen - 512) / elemlen := by
    rw [Nat.le_div_iff_mul_le he]
    omega
  constructor
  · unfold slot_offset
    have hm : (head + i) % (rte_ring_create totallen elemlen).size + 1 ≤
        (rte_ring_create totallen elemlen).size :=
      Nat.mod_lt _ (by exact hs1)
    calc (head + i) % (rte_ring_create totallen elemlen).size *
          (rte_ring_create totallen elemlen).elemlen +
          (rte_ring_create totallen elemlen).elemlen
        = ((head + i) % (rte_ring_create totallen elemlen).size + 1) *
            (rte_ring_create totallen elemlen).elemlen := by ring
      _ ≤ (rte_ring_create totallen elemlen).size *
            (rte_ring_create totallen elemlen).elemlen :=
          Nat.mul_le_mul_right _ hm
  · exact Nat.div_mul_le_self _ _

theorem c10_copy_stays_in_bounds_witness :
    slot_offset (rte_ring_create 544 4) 5 6 + (rte_ring_create 544 4).elemlen ≤
      (rte_ring_create 544 4).size * (rte_ring_create 544 4).elemlen ∧
    (rte_ring_create 544 4).size * (rte_ring_create 544 4).elemlen ≤ 544 - 512 :=
  c10_copy_stays_in_bounds 544 4 5 6 (by decide) (by decide)

/-- Claim C2 (amended): the head counters are maintained modulo `size`
(pre-masked into `[0, size)`), not modulo `2^32`: for every successful
reservation of `n1` slots the head-reservation protocol stores
`((old_head + n1) mod 2^32) mod size` into the moved head counter, on
both the producer and the consumer side. -/
theorem c2_amended_head_update_premasked (r : rte_ring) (n : Nat)
    (b : rte_ring_queue_behavior) :
    ((__rte_ring_move_prod_head r n b).1.granted ≠ 0 →
      (__rte_ring_move_prod_head r n b).2.prod_head =
        ((__rte_ring_move_prod_head r n b).1.old_head +
          (__rte_ring_move_prod_head r n b).1.granted) % U32 % r.size) ∧
    ((__rte_ring_move_cons_head r n b).1.granted ≠ 0 →
      (__rte_ring_move_cons_head r n b).2.cons_head =
        ((__rte_ring_move_cons_head r n b).1.old_head +
          (__rte_ring_move_cons_head r n b).1.granted) % U32 % r.size) := by
  constructor
  · intro h
    rw [move_prod_head_eq] at h ⊢
    split at h
    · simp at h
    · rename_i hc
      rw [if_neg hc]
  · intro h
    rw [move_cons_head_eq] at h ⊢
    split at h
    · simp at h
    · rename_i hc
      rw [if_neg hc]

theorem c2_amended_head_update_premasked_witness :
    ((__rte_ring_move_prod_head demo2 3 .RTE_RING_QUEUE_FIXED).2.prod_head =
      ((__rte_ring_move_prod_head demo2 3 .RTE_RING_QUEUE_FIXED).1.old_head +
        (__rte_ring_move_prod_head demo2 3 .RTE_RING_QUEUE_FIXED).1.granted) % U32 %
          demo2.size) ∧
    ((__rte_ring_move_cons_head demo1 3 .RTE_RING_QUEUE_FIXED).2.cons_head =
      ((__rte_ring_move_cons_head demo1 3 .RTE_RING_QUEUE_FIXED).1.old_head +
        (__rte_ring_move_cons_head demo1 3 .RTE_RING_QUEUE_FIXED).1.granted) % U32 %
          demo1.size) :=
  ⟨(c2_amended_head_update_premasked demo2 3 .RTE_RING_QUEUE_FIXED).1 (by decide),
   (c2_amended_head_update_premasked demo1 3 .RTE_RING_QUEUE_FIXED).2 (by decide)⟩

/-- Claim C5: for every ring state with the creation-time relation
`capacity + 1 = size`, a FIXED request of `n > capacity` (enqueue or
dequeue) returns 0 and leaves the ring — all four counters and the
storage — unchanged, regardless of current occupancy, because the
computed availability is always below `size`. -/
theorem c5_oversize_fixed_rejected (r : rte_ring) (obj : List Nat) (n : Nat)
    (hc : r.capacity + 1 = r.size) (hn : r.capacity < n) :
    __rte_ring_do_enqueue r obj n .RTE_RING_QUEUE_FIXED = some (0, r) ∧
    __rte_ring_do_dequeue r n .RTE_RING_QUEUE_FIXED = some (0, [], r) := by
  have hs : 0 < r.size := by omega
  have hfree : free_entries_of r < r.size := free_entries_lt r hs
  have hent : entries_of r < r.size := entries_lt r hs
  have hez : behavior_clamp .RTE_RING_QUEUE_FIXED n (free_entries_of r) = 0 :=
    behavior_clamp_fixed_zero (by omega)
  have hdz : behavior_clamp .RTE_RING_QUEUE_FIXED n (entries_of r) = 0 :=
    behavior_clamp_fixed_zero (by omega)
  constructor
  · simp [__rte_ring_do_enqueue, move_prod_head_eq, hez]
  · simp [__rte_ring_do_dequeue, move_cons_head_eq, hdz]

theorem c5_oversize_fixed_rejected_witness :
    __rte_ring_do_enqueue demo0 [1, 2, 3, 4, 5, 6, 7, 8] 8 .RTE_RING_QUEUE_FIXED =
      some (0, demo0) ∧
    __rte_ring_do_dequeue demo0 8 .RTE_RING_QUEUE_FIXED = some (0, [], demo0) :=
  c5_oversize_fixed_rejected demo0 [1, 2, 3, 4, 5, 6, 7, 8] 8 (by decide) (by decide)

/-- Claim C6: starting from a freshly created ring (nonzero size, size
representable in a C `int`), enqueueing exactly `capacity` elements fully
succeeds and a subsequent dequeue of `capacity` elements fully succeeds,
restoring the ring to empty with `producer_head = producer_tail =
consumer_head = consumer_tail` (the shared offset) and occupancy 0. -/
theorem c6_roundtrip_restores_empty (totallen elemlen : Nat) (vals : List Nat)
    (h1 : 1 ≤ (totallen - 512) / elemlen)
    (h2 : (totallen - 512) / elemlen ≤ 2 ^ 31) :
    ∃ (r1 r2 : rte_ring) (out : List Nat),
      __rte_ring_do_enqueue (rte_ring_create totallen elemlen) vals
          (rte_ring_create totallen elemlen).capacity .RTE_RING_QUEUE_FIXED
        = some ((rte_ring_create totallen elemlen).capacity, r1)
      ∧ __rte_ring_do_dequeue r1 (rte_ring_create totallen elemlen).capacity
          .RTE_RING_QUEUE_FIXED
        = some ((rte_ring_create totallen elemlen).capacity, out, r2)
      ∧ r2.prod_head = r2.prod_tail ∧ r2.prod_tail = r2.cons_head
      ∧ r2.cons_head = r2.cons_tail ∧ ring_usage r2 = 0 := by
  have hcr : rte_ring_create totallen elemlen =
      ⟨(totallen - 512) / elemlen, (totallen - 512) / elemlen - 1,
        (totallen - 512) / elemlen - 1, elemlen, 0, 0, 0, 0,
        List.replicate ((totallen - 512) / elemlen) 0⟩ := rfl
  rw [hcr]
  exact roundtrip_aux ((totallen - 512) / elemlen) ((totallen - 512) / elemlen - 1)
    elemlen (List.replicate ((totallen - 512) / elemlen) 0) vals h1 h2

theorem c6_roundtrip_restores_empty_witness :
    ∃ (r1 r2 : rte_ring) (out : List Nat),
      __rte_ring_do_enqueue (rte_ring_create 544 4) [1, 2, 3, 4, 5, 6, 7]
          (rte_ring_create 544 4).capacity .RTE_RING_QUEUE_FIXED
        = some ((rte_ring_create 544 4).capacity, r1)
      ∧ __rte_ring_do_dequeue r1 (rte_ring_create 544 4).capacity
          .RTE_RING_QUEUE_FIXED
        = some ((rte_ring_create 544 4).capacity, out, r2)
      ∧ r2.prod_head = r2.prod_tail ∧ r2.prod_tail = r2.cons_head
      ∧ r2.cons_head = r2.cons_tail ∧ ring_usage r2 = 0 :=
  c6_roundtrip_restores_empty 544 4 [1, 2, 3, 4, 5, 6, 7] (by decide) (by decide)

/-- Claim C4: the publish step for a reserved range `[old_val, new_val)`
stores `new_val` into the tail exactly when the tail equals `old_val`
(every earlier reservation already published); while the tail differs
from `old_val` no store happens, so the tail is never advanced past an
unpublished earlier reservation.  The busy-wait of `update_tail` is
modelled as the guarded step `update_tail`. -/
theorem c4_publish_waits_for_predecessors (tail old_val new_val : Nat) :
    (tail = old_val → update_tail tail old_val new_val = some new_val) ∧
    (tail ≠ old_val → update_tail tail old_val new_val = none) ∧
    (∀ v, update_tail tail old_val new_val = some v → tail = old_val ∧ v = new_val) := by
  refine ⟨fun h => by simp [update_tail, h], fun h => by simp [update_tail, h],
    fun v hv => ?_⟩
  by_cases h : tail = old_val
  · simp [update_tail, h] at hv
    exact ⟨h, hv.symm⟩
  · simp [update_tail, h] at hv

theorem c4_publish_waits_for_predecessors_witness :
    update_tail 5 5 9 = some 9 ∧ update_tail 4 5 9 = none :=
  ⟨(c4_publish_waits_for_predecessors 5 5 9).1 rfl,
   (c4_publish_waits_for_predecessors 4 5 9).2.1 (by decide)⟩

/-- Claim C7 (amended): the behavior flag is a parameter only of the
internal `__rte_ring_do_enqueue` / `__rte_ring_do_dequeue`; the public
bulk operations hard-wire it, `rte_ring_enqueue_bulk` to VARIABLE and
`rte_ring_dequeue_bulk` to FIXED, offering the caller no choice. -/
theorem c7_amended_hardwired_behaviors :
    (∀ (r : rte_ring) (obj : List Nat) (n : Nat),
      rte_ring_enqueue_bulk r obj n =
        __rte_ring_do_enqueue r obj n .RTE_RING_QUEUE_VARIABLE) ∧
    (∀ (r : rte_ring) (n : Nat),
      rte_ring_dequeue_bulk r n = __rte_ring_do_dequeue r n .RTE_RING_QUEUE_FIXED) :=
  ⟨fun _ _ _ => rfl, fun _ _ => rfl⟩

/-- Claim C8 (amended): on the domain where the creation arithmetic is
well-defined C behavior (`elemlen > 0` and `totallen >= 512 + elemlen`,
so the derived size is at least 1), `rte_ring_create` performs no
validation and does not fail: it returns a fully initialized, nonempty
handle with `size = (totallen - 512) / elemlen`, `mask = capacity =
size - 1`, zeroed counters and zeroed storage — even when the derived
size is not a power of two.  (For `elemlen = 0` the C divides by zero,
UB, so nothing is asserted there.) -/
theorem c8_amended_create_never_fails (totallen elemlen : Nat)
    (he : 0 < elemlen) (hlen : 512 + elemlen ≤ totallen) :
    ∃ r : rte_ring, rte_ring_create totallen elemlen = r ∧
      r.size = (totallen - 512) / elemlen ∧ 1 ≤ r.size ∧
      r.capacity = r.size - 1 ∧ r.mask = r.size - 1 ∧ r.elemlen = elemlen ∧
      r.prod_head = 0 ∧ r.prod_tail = 0 ∧ r.cons_head = 0 ∧ r.cons_tail = 0 ∧
      r.data = List.replicate r.size 0 := by
  have hs1 : 1 ≤ (totallen - 512) / elemlen := by
    rw [Nat.le_div_iff_mul_le he]
    omega
  exact ⟨rte_ring_create totallen elemlen, rfl, rfl, hs1, rfl, rfl, rfl, rfl, rfl,
    rfl, rfl, rfl⟩

theorem c8_amended_create_never_fails_witness :
    ∃ r : rte_ring, rte_ring_create 524 4 = r ∧
      r.size = (524 - 512) / 4 ∧ 1 ≤ r.size ∧
      r.capacity = r.size - 1 ∧ r.mask = r.size - 1 ∧ r.elemlen = 4 ∧
      r.prod_head = 0 ∧ r.prod_tail = 0 ∧ r.cons_head = 0 ∧ r.cons_tail = 0 ∧
      r.data = List.replicate r.size 0 :=
  c8_amended_create_never_fails 524 4 (by decide) (by decide)

/-- Claim C8 counterexample: the configuration `totallen = 524`,
`elemlen = 4` derives `size = 3`, which is not a power of two (an invalid
configuration per the claim), yet creation does not fail: it returns a
usable, fully initialized handle. -/
theorem c8_counterexample_create_accepts_invalid :
    (rte_ring_create 524 4).size = 3 ∧ (rte_ring_create 524 4).capacity = 2 ∧
    (rte_ring_create 524 4).elemlen = 4 ∧ (rte_ring_create 524 4).data = [0, 0, 0] ∧
    ¬ ∃ k, (rte_ring_create 524 4).size = 2 ^ k := by
  refine ⟨rfl, rfl, rfl, rfl, ?_⟩
  rintro ⟨k, hk⟩
  have h3 : (3 : Nat) = 2 ^ k := hk
  rcases k with _ | _ | k
  · simp at h3
  · simp at h3
  · have h1 : 1 ≤ 2 ^ k := Nat.one_le_two_pow
    have h4 : (2 : Nat) ^ (k + 1 + 1) = 2 ^ k * 2 * 2 := by
      rw [pow_succ, pow_succ]
    omega

end RteRing
